import Mathlib

/-!
Verification of the pulseguardian web layer (`pulseguardian/web.py`) and its
RabbitMQ management client (`management.py`).

The relational store is embedded as explicit lists of records; every HTTP
handler becomes a pure function from the store, the acting user and the
request parameters to the resulting store plus the rendered response data.
Broker-side effects (network calls to the RabbitMQ management API) are
passed in as function parameters whose result encodes success or a raised
exception, so that each handler's reaction to a broker failure is explicit.
-/

/-- An application `User` row: identity-provider email plus admin flag
(`model.user.User`, referenced throughout `web.py`). -/
structure User where
  email : String
  admin : Bool
deriving DecidableEq, Repr

/-- A `PulseUser` row: broker username, stored credential, and the set of
owning application users, represented by their (unique) emails. -/
structure PulseUser where
  username : String
  password : String
  owners : List String
deriving DecidableEq, Repr

/-- A `Queue` row: broker-assigned name and the optional owning `PulseUser`,
referenced by username (nullable foreign key). -/
structure QueueRec where
  name : String
  owner : Option String
deriving DecidableEq, Repr

/-- The relational store backing the web layer. -/
structure Store where
  users : List User
  pulseUsers : List PulseUser
  queues : List QueueRec
deriving DecidableEq, Repr

/-- `Queue.query.get(queue_name)`: primary-key lookup. -/
def findQueue (st : Store) (queue_name : String) : Option QueueRec :=
  st.queues.find? (fun q => q.name == queue_name)

/-- `PulseUser.query.filter(PulseUser.username == name).first()`. -/
def findPulseUser (st : Store) (username : String) : Option PulseUser :=
  st.pulseUsers.find? (fun pu => pu.username == username)

/-- The ORM resolution of `queue.owner`: the related `PulseUser` row, when the
foreign key is set and the row exists. -/
def queueOwner (st : Store) (q : QueueRec) : Option PulseUser :=
  q.owner.bind (findPulseUser st)

/-- A broker-side call that either succeeds or raises
`PulseManagementException` carrying a message. -/
abbrev BrokerCall := String → Except String Unit

/-- `delete_queue` (web.py lines 253-270): look the queue up by primary key;
if found and the acting user is an admin or a member of the owning
pulse user's owners, delete it on the broker first, and only on success
delete and commit the local row.  Returns the new store and the `ok` flag of
the JSON response. -/
def delete_queue (st : Store) (acting : User) (brokerDeleteQueue : BrokerCall)
    (queue_name : String) : Store × Bool :=
  match findQueue st queue_name with
  | some queue =>
    if acting.admin || (match queueOwner st queue with
                        | some pu => pu.owners.contains acting.email
                        | none => false) then
      match brokerDeleteQueue queue.name with
      | .error _ => (st, false)
      | .ok _ =>
        ({ st with queues := st.queues.filter (fun q => q.name != queue_name) }, true)
    else (st, false)
  | none => (st, false)

/-- `delete_pulse_user` (web.py lines 273-292): same discipline for a
`PulseUser`: broker-side `delete_user` first, local delete + commit only on
success. -/
def delete_pulse_user (st : Store) (acting : User) (brokerDeleteUser : BrokerCall)
    (pulse_username : String) : Store × Bool :=
  match findPulseUser st pulse_username with
  | some pulse_user =>
    if acting.admin || pulse_user.owners.contains acting.email then
      match brokerDeleteUser pulse_user.username with
      | .error _ => (st, false)
      | .ok _ =>
        ({ st with pulseUsers := st.pulseUsers.filter (fun p => p.username != pulse_username) }, true)
    else (st, false)
  | none => (st, false)

-- Concrete fixtures used by witnesses and counterexamples.

/-- A non-admin user. -/
def alice : User := ⟨"alice@example.com", false⟩

/-- Another non-admin user. -/
def bob : User := ⟨"bob@example.com", false⟩

/-- An admin user. -/
def root : User := ⟨"root@example.com", true⟩

/-- A pulse user owned by alice. -/
def puAlice : PulseUser := ⟨"pulse-alice", "s3cret1", ["alice@example.com"]⟩

/-- A queue owned by `puAlice`. -/
def qOwned : QueueRec := ⟨"queue/alice", some "pulse-alice"⟩

/-- A queue with no owner on record. -/
def qOrphan : QueueRec := ⟨"orphan-queue", none⟩

/-- A small concrete store. -/
def st0 : Store := ⟨[alice, bob, root], [puAlice], [qOwned, qOrphan]⟩

/-- A broker that always fails. -/
def brokerDown : BrokerCall := fun _ => .error "connection refused"

/-- A broker that always succeeds. -/
def brokerUp : BrokerCall := fun _ => .ok ()

example : delete_queue st0 root brokerUp "queue/alice"
    = (⟨[alice, bob, root], [puAlice], [qOrphan]⟩, true) := by decide

example : delete_queue st0 root brokerDown "queue/alice" = (st0, false) := by decide

example : delete_queue st0 bob brokerUp "queue/alice" = (st0, false) := by decide

example : delete_pulse_user st0 alice brokerUp "pulse-alice"
    = (⟨[alice, bob, root], [], [qOwned, qOrphan]⟩, true) := by decide

-- Helper: the primary-key lookup returns a queue bearing the looked-up name.

lemma findQueue_name {st : Store} {qn : String} {q : QueueRec}
    (h : findQueue st qn = some q) : q.name = qn := by
  have h' : st.queues.find? (fun r => r.name == qn) = some q := h
  have := List.find?_some h'
  simpa using this

lemma findPulseUser_username {st : Store} {un : String} {pu : PulseUser}
    (h : findPulseUser st un = some pu) : pu.username = un := by
  have h' : st.pulseUsers.find? (fun r => r.username == un) = some pu := h
  have := List.find?_some h'
  simpa using this

/-- C1: for both deletion endpoints, a broker-side failure
(`PulseManagementException`) makes the operation answer `ok=false` with the
local store untouched: the local `Queue` / `PulseUser` row is deleted and
committed only after the broker-side deletion succeeds. -/
theorem delete_ops_unchanged_on_broker_error
    (st : Store) (acting : User) (bq bu : BrokerCall)
    (queue_name pulse_username : String) (e₁ e₂ : String)
    (hq : bq queue_name = Except.error e₁)
    (hu : bu pulse_username = Except.error e₂) :
    delete_queue st acting bq queue_name = (st, false) ∧
    delete_pulse_user st acting bu pulse_username = (st, false) := by
  constructor
  · cases hfind : findQueue st queue_name with
    | none => simp [delete_queue, hfind]
    | some q =>
      have hname := findQueue_name hfind
      simp only [delete_queue, hfind]
      split
      · rw [hname, hq]
      · rfl
  · cases hfind : findPulseUser st pulse_username with
    | none => simp [delete_pulse_user, hfind]
    | some pu =>
      have hname := findPulseUser_username hfind
      simp only [delete_pulse_user, hfind]
      split
      · rw [hname, hu]
      · rfl

/-- Witness for C1 at a concrete store and failing broker. -/
theorem delete_ops_unchanged_on_broker_error_witness :
    delete_queue st0 root brokerDown "queue/alice" = (st0, false) ∧
    delete_pulse_user st0 root brokerDown "pulse-alice" = (st0, false) :=
  delete_ops_unchanged_on_broker_error st0 root brokerDown brokerDown
    "queue/alice" "pulse-alice" "connection refused" "connection refused" rfl rfl

/-- C4: with the queue present and the broker deletion succeeding, the
operation reports `ok=true` exactly when the acting user is an admin or a
member of the owning pulse user's owners set; a queue with no owner on
record is deletable only by an admin, and an admin deletes any queue. -/
theorem delete_queue_permission
    (st : Store) (acting : User) (broker : BrokerCall) (queue_name : String)
    (q : QueueRec) (hfind : findQueue st queue_name = some q)
    (hok : broker queue_name = Except.ok ()) :
    ((delete_queue st acting broker queue_name).2 = true ↔
      (acting.admin = true ∨
        ∃ pu, queueOwner st q = some pu ∧ acting.email ∈ pu.owners)) ∧
    (q.owner = none → acting.admin = false →
      delete_queue st acting broker queue_name = (st, false)) ∧
    (acting.admin = true →
      delete_queue st acting broker queue_name
        = ({ st with queues := st.queues.filter (fun r => r.name != queue_name) }, true)) := by
  have hname := findQueue_name hfind
  have hred : delete_queue st acting broker queue_name =
      (if (acting.admin || (match queueOwner st q with
                            | some pu => pu.owners.contains acting.email
                            | none => false)) = true then
        ({ st with queues := st.queues.filter (fun r => r.name != queue_name) }, true)
      else (st, false)) := by
    simp only [delete_queue, hfind]
    split
    · rw [hname, hok]
    · rfl
  refine ⟨?_, ?_, ?_⟩
  · rw [hred]
    by_cases hadm : acting.admin = true
    · simp [hadm]
    · simp only [Bool.not_eq_true] at hadm
      cases how : queueOwner st q with
      | none =>
        simp [hadm, how]
      | some pu =>
        simp [hadm, how]
        split_ifs with hmem
        · simp [hmem]
        · simp [hmem]
  · intro hown hadm
    rw [hred]
    simp [hadm, queueOwner, hown]
  · intro hadm
    rw [hred]
    simp [hadm]

/-- Witness for C4: the admin deletes the ownerless queue. -/
theorem delete_queue_permission_witness :
    delete_queue st0 root brokerUp "orphan-queue"
      = ({ st0 with queues := st0.queues.filter (fun r => r.name != "orphan-queue") }, true) :=
  (delete_queue_permission st0 root brokerUp "orphan-queue" qOrphan (by decide) rfl).2.2 rfl

/-- C9 (amended): for the two JSON deletion endpoints the response to a
missing target and to an unauthorized request on an existing target is the
identical generic denial — `ok=false` with the store untouched — so those
callers cannot learn whether the target exists.  (The `update_info` flow, by
contrast, distinguishes the two cases; see the counterexample.) -/
theorem delete_denials_indistinguishable
    (st : Store) (acting : User) (bq bu : BrokerCall) (qn un : String) :
    (findQueue st qn = none → delete_queue st acting bq qn = (st, false)) ∧
    (∀ q, findQueue st qn = some q → acting.admin = false →
      (∀ pu, queueOwner st q = some pu → acting.email ∉ pu.owners) →
      delete_queue st acting bq qn = (st, false)) ∧
    (findPulseUser st un = none → delete_pulse_user st acting bu un = (st, false)) ∧
    (∀ pu, findPulseUser st un = some pu → acting.admin = false →
      acting.email ∉ pu.owners →
      delete_pulse_user st acting bu un = (st, false)) := by
  refine ⟨?_, ?_, ?_, ?_⟩
  · intro h
    simp [delete_queue, h]
  · intro q hfind hadm hnmem
    simp only [delete_queue, hfind]
    cases how : queueOwner st q with
    | none => simp [hadm, how]
    | some pu =>
      have := hnmem pu how
      simp [hadm, how, this]
  · intro h
    simp [delete_pulse_user, h]
  · intro pu hfind hadm hnmem
    simp [delete_pulse_user, hfind, hadm, hnmem]

/-- Witness for C9's amended theorem: bob (neither admin nor owner) gets the
same `(st0, false)` denial for a missing queue and for alice's queue. -/
theorem delete_denials_indistinguishable_witness :
    delete_queue st0 bob brokerUp "no-such-queue" = (st0, false) ∧
    delete_queue st0 bob brokerUp "queue/alice" = (st0, false) := by
  exact ⟨(delete_denials_indistinguishable st0 bob brokerUp brokerUp
            "no-such-queue" "pulse-alice").1 (by decide),
         (delete_denials_indistinguishable st0 bob brokerUp brokerUp
            "queue/alice" "pulse-alice").2.1 qOwned (by decide) (by decide) (by decide)⟩


-- Character-level models of the Python string operations involved
-- (`str.split`, `str.strip`, `urllib.quote`), written by structural
-- recursion so that every concrete instance evaluates.

/-- `s.split(sep)` for a one-character separator: splitting the empty string
gives one empty token, and `n` separators give `n+1` tokens. -/
def splitOnChar (sep : Char) : List Char → List (List Char)
  | [] => [[]]
  | c :: cs =>
    if c = sep then [] :: splitOnChar sep cs
    else match splitOnChar sep cs with
      | [] => [[c]]
      | t :: ts => (c :: t) :: ts

/-- `str.strip()`: drop leading and trailing whitespace. -/
def stripChars (l : List Char) : List Char :=
  ((l.dropWhile Char.isWhitespace).reverse.dropWhile Char.isWhitespace).reverse

example : splitOnChar ',' "a,,b".data = ["a".data, [], "b".data] := by decide
example : splitOnChar ',' "".data = [[]] := by decide
example : stripChars "  a b ".data = "a b".data := by decide

-- The owner/password update flow (`update_info`, web.py lines 392-460).
-- Python sets of strings are modelled as duplicate-free lists together with
-- order-insensitive equality, and `sorted(...)` as insertion sort.

/-- Python set equality of the underlying lists. -/
def setEqStr (a b : List String) : Bool :=
  a.all b.contains && b.all a.contains

/-- Modelled from the spec: `PulseUser.strong_password`
(`model/pulse_user.py`, not under `src/`): at least 6 characters, at least
one alphabetic and at least one numeric character. -/
def strong_password (p : String) : Bool :=
  decide (6 ≤ p.data.length) && p.data.any Char.isAlpha && p.data.any Char.isDigit

/-- `_clean_owners_str` (web.py lines 454-460): split the raw string on
commas, drop empty tokens, strip whitespace, and collect the result as a set
(a duplicate-free list here). -/
def clean_owners_str (owners_str : String) : List String :=
  ((((splitOnChar ',' owners_str.data).filter (fun t => t ≠ [])).map
    (fun t => String.mk (stripChars t))).dedup)

/-- Replace the owners list of the pulse user row bearing the given username
(the ORM assignment `pulse_user.owners = new_owner_users` plus commit). -/
def setOwners (st : Store) (username : String) (owners : List String) : Store :=
  { st with pulseUsers := st.pulseUsers.map (fun p => if p.username == username then { p with owners := owners } else p) }

/-- Modelled from the spec: the local side-effect of
`PulseUser.change_password` (`model/pulse_user.py`, not under `src/`) — the
password-hash update on the row.  Per the spec the broker-side credential
update comes first and its failure must prevent this local write, so
`update_info` performs the broker call and applies this update only when
that call succeeds. -/
def setPassword (st : Store) (username : String) (password : String) : Store :=
  { st with pulseUsers := st.pulseUsers.map (fun p => if p.username == username then { p with password := password } else p) }

/-- `User.query.filter(User.email.in_(new_owners))`: the requested owner
emails that resolve to local `User` rows. -/
def resolvedOwnerUsers (st : Store) (new_owners : List String) : List User :=
  st.users.filter (fun u => new_owners.contains u.email)

/-- `sorted(new_owners - updated_owners)`: the requested emails that did not
resolve, in sorted order. -/
def invalidOwners (new_owners : List String) (resolved : List User) : List String :=
  List.insertionSort (· ≤ ·)
    (new_owners.filter (fun e => !((resolved.map User.email).contains e)))

/-- The data rendered by `profile(...)` at the end of `update_info`: the
committed store plus the `messages` list and optional `error` string. -/
structure UpdateResult where
  store : Store
  messages : List String
  error : Option String
deriving DecidableEq, Repr

/-- The tail of `update_info` (web.py lines 448-451): if neither an error nor
a message was produced, report the informational "No info updated.". -/
def finish_profile (st : Store) (messages : List String) (error : Option String) :
    UpdateResult :=
  if messages = [] ∧ error = none then ⟨st, ["No info updated."], none⟩
  else ⟨st, messages, error⟩

/-- The owner-list part of `update_info` (web.py lines 427-451), entered with
the store as committed by the password part, the target row and the messages
accumulated so far. -/
def update_info_owners (st : Store) (pulse_user : PulseUser)
    (new_owners : List String) (messages0 : List String) : UpdateResult :=
  if new_owners ≠ [] ∧ setEqStr new_owners pulse_user.owners = false then
    let new_owner_users := resolvedOwnerUsers st new_owners
    if new_owner_users ≠ [] then
      let st' := setOwners st pulse_user.username (new_owner_users.map User.email)
      let invalid_owners := invalidOwners new_owners new_owner_users
      if invalid_owners ≠ [] then
        finish_profile st' messages0
          (some ("Some user emails not found: " ++ String.intercalate ", " invalid_owners))
      else
        finish_profile st' ["Email list updated."] none
    else
      finish_profile st messages0
        (some "Invalid owners: Must be a comma-delimited list of existing user emails.")
  else
    finish_profile st messages0 none

/-- The broker-side credential update performed inside
`PulseUser.change_password` (a `PUT` on the broker user), as a function of
the username and the new password; `.error` is a raised
`PulseManagementException`. -/
abbrev PasswordBrokerCall := String → String → Except String Unit

/-- A credential-update broker call that always succeeds. -/
def pwBrokerUp : PasswordBrokerCall := fun _ _ => .ok ()

/-- A credential-update broker call that always fails. -/
def pwBrokerDown : PasswordBrokerCall := fun _ _ => .error "connection refused"

/-- `update_info` (web.py lines 392-451): find the target pulse user
(reporting "not found" without raising), reject non-owners (with no admin
override), then run the password part and the owner-list part.  The
password part calls `pulse_user.change_password` (modelled from the spec:
`model/pulse_user.py` is not under `src/`): the broker-side credential
update runs first and a failure there raises out of the handler
(`Except.error`), preventing the local password write and never reaching
the owner-list stage. -/
def update_info (st : Store) (acting : User) (brokerChangePassword : PasswordBrokerCall)
    (pulse_username new_password password_verification owners_str : String) :
    Except String UpdateResult :=
  let new_owners := clean_owners_str owners_str
  match findPulseUser st pulse_username with
  | none => .ok ⟨st, ["Pulse user " ++ pulse_username ++ " not found."], none⟩
  | some pulse_user =>
    if acting.email ∉ pulse_user.owners then
      .ok ⟨st, ["Invalid user: " ++ acting.email ++ " is not an owner."], none⟩
    else if new_password ≠ "" then
      if new_password ≠ password_verification then
        .ok ⟨st, [], some "Password verification doesn\x27t match the password."⟩
      else if strong_password new_password = false then
        .ok ⟨st, [], some ("Your password must contain a mix of letters and "
          ++ "numerical characters and be at least 6 characters long.")⟩
      else
        match brokerChangePassword pulse_user.username new_password with
        | .error e => .error e
        | .ok _ =>
          .ok (update_info_owners (setPassword st pulse_user.username new_password)
            pulse_user new_owners
            ["Password updated for user " ++ pulse_username ++ "."])
    else
      .ok (update_info_owners st pulse_user new_owners [])

example : clean_owners_str " alice@example.com ,, bob@x " = ["alice@example.com", "bob@x"] := by
  decide

example : update_info st0 alice pwBrokerUp "pulse-alice" "" ""
    "alice@example.com, ghost@example.com"
    = .ok ⟨⟨[alice, bob, root], [⟨"pulse-alice", "s3cret1", ["alice@example.com"]⟩],
        [qOwned, qOrphan]⟩, [],
        some "Some user emails not found: ghost@example.com"⟩ := by rfl

example : update_info st0 alice pwBrokerUp "pulse-alice" "" "" "bob@example.com"
    = .ok ⟨setOwners st0 "pulse-alice" ["bob@example.com"], ["Email list updated."], none⟩ := by
  rfl

example : update_info st0 alice pwBrokerUp "pulse-alice" "" "" "ghost@example.com"
    = .ok ⟨st0, [],
        some "Invalid owners: Must be a comma-delimited list of existing user emails."⟩ := by
  rfl

example : update_info st0 alice pwBrokerUp "pulse-alice" "" "" ""
    = .ok ⟨st0, ["No info updated."], none⟩ := by rfl

example : update_info st0 root pwBrokerUp "pulse-alice" "" "" ""
    = .ok ⟨st0, ["Invalid user: root@example.com is not an owner."], none⟩ := by rfl

example : update_info st0 alice pwBrokerUp "pulse-alice" "newpw12" "newpw12" ""
    = .ok ⟨setPassword st0 "pulse-alice" "newpw12",
        ["Password updated for user pulse-alice."], none⟩ := by rfl

example : update_info st0 alice pwBrokerDown "pulse-alice" "newpw12" "newpw12"
    "bob@example.com" = .error "connection refused" := by rfl

/-- C5: `update_info` rejects (reports, without raising) any acting user who
is not currently among the target pulse user's owners, with no admin
override: the check reads only the owners list, never the admin flag. -/
theorem update_info_owner_only_check
    (st : Store) (acting : User) (bcp : PasswordBrokerCall)
    (pulse_username new_password password_verification owners_str : String)
    (pu : PulseUser) (hfind : findPulseUser st pulse_username = some pu)
    (hnot : acting.email ∉ pu.owners) :
    update_info st acting bcp pulse_username new_password password_verification owners_str
      = .ok ⟨st, ["Invalid user: " ++ acting.email ++ " is not an owner."], none⟩ := by
  simp only [update_info, hfind]
  simp [hnot]

/-- Witness for C5: the admin `root` is rejected by `update_info` on a pulse
user it does not own, unlike the admin-or-owner rule of the delete flows. -/
theorem update_info_owner_only_check_witness :
    root.admin = true ∧
    update_info st0 root pwBrokerDown "pulse-alice" "" "" ""
      = .ok ⟨st0, ["Invalid user: root@example.com is not an owner."], none⟩ := by
  refine ⟨rfl, ?_⟩
  rw [update_info_owner_only_check st0 root pwBrokerDown "pulse-alice" "" "" "" puAlice
    (by decide) (by decide)]
  rfl

-- Helper lemmas for the owner-list reconciliation proof.

lemma find?_map_modify (l : List PulseUser) (un : String) (g : PulseUser → PulseUser)
    (hg : ∀ p, (g p).username = p.username) :
    (l.map (fun p => if p.username == un then g p else p)).find?
        (fun p => p.username == un)
      = (l.find? (fun p => p.username == un)).map g := by
  induction l with
  | nil => rfl
  | cons p t ih =>
    by_cases hc : (p.username == un) = true
    · simp [List.find?, hc, hg p]
    · simp only [List.map_cons, List.find?, hc]
      simpa [hc, List.find?] using ih

lemma findPulseUser_setOwners (st : Store) (un : String) (os : List String) :
    findPulseUser (setOwners st un os) un
      = (findPulseUser st un).map (fun p => { p with owners := os }) :=
  find?_map_modify st.pulseUsers un _ (fun _ => rfl)

lemma findPulseUser_setPassword (st : Store) (un pw : String) :
    findPulseUser (setPassword st un pw) un
      = (findPulseUser st un).map (fun p => { p with password := pw }) :=
  find?_map_modify st.pulseUsers un _ (fun _ => rfl)

lemma update_info_owners_cases
    (stb : Store) (pu : PulseUser) (nos msgs0 : List String)
    (hne : nos ≠ []) (hdiff : setEqStr nos pu.owners = false) :
    (resolvedOwnerUsers stb nos ≠ [] →
       (update_info_owners stb pu nos msgs0).store
         = setOwners stb pu.username ((resolvedOwnerUsers stb nos).map User.email) ∧
       (invalidOwners nos (resolvedOwnerUsers stb nos) ≠ [] →
         (update_info_owners stb pu nos msgs0).error
           = some ("Some user emails not found: "
               ++ String.intercalate ", " (invalidOwners nos (resolvedOwnerUsers stb nos)))) ∧
       (invalidOwners nos (resolvedOwnerUsers stb nos) = [] →
         (update_info_owners stb pu nos msgs0).error = none ∧
         (update_info_owners stb pu nos msgs0).messages = ["Email list updated."])) ∧
    (resolvedOwnerUsers stb nos = [] →
       (update_info_owners stb pu nos msgs0).store = stb ∧
       (update_info_owners stb pu nos msgs0).error
         = some "Invalid owners: Must be a comma-delimited list of existing user emails.") := by
  unfold update_info_owners
  simp only [hne, hdiff, ne_eq, not_false_iff, and_self, if_true, reduceIte]
  constructor
  · intro hres
    simp only [hres, reduceIte, if_true, ne_eq, not_false_iff]
    by_cases hinv : invalidOwners nos (resolvedOwnerUsers stb nos) = []
    · simp [hinv, finish_profile]
    · simp [hinv, finish_profile]
  · intro hres
    simp [hres, finish_profile]

/-- C3 (amended): in `update_info`, when the flow reaches the owner-list
stage (any supplied new password passes its checks and its broker-side
credential update succeeds) and the cleaned new-owner set is nonempty and
differs from the current owner set: if at least one requested email
resolves to an existing local user, the pulse user's owners are replaced
by exactly the resolved set and committed, with the unresolved emails
reported, sorted, as an error (plain success if all resolved); if no
supplied email resolves, the owners are left unchanged and the rejection
instructs the caller that owners must be a comma-delimited list of existing
user emails. -/
theorem update_info_owner_reconciliation
    (st : Store) (acting : User) (bcp : PasswordBrokerCall)
    (pulse_username new_password password_verification owners_str : String)
    (pu : PulseUser) (hfind : findPulseUser st pulse_username = some pu)
    (howner : acting.email ∈ pu.owners)
    (hpw : new_password = "" ∨
      (new_password = password_verification ∧ strong_password new_password = true ∧
        bcp pu.username new_password = Except.ok ()))
    (hne : clean_owners_str owners_str ≠ [])
    (hdiff : setEqStr (clean_owners_str owners_str) pu.owners = false) :
    ∃ r : UpdateResult,
      update_info st acting bcp pulse_username new_password password_verification owners_str
        = Except.ok r ∧
      (resolvedOwnerUsers st (clean_owners_str owners_str) ≠ [] →
        (findPulseUser r.store pulse_username).map PulseUser.owners
          = some ((resolvedOwnerUsers st (clean_owners_str owners_str)).map User.email) ∧
        (invalidOwners (clean_owners_str owners_str)
            (resolvedOwnerUsers st (clean_owners_str owners_str)) ≠ [] →
          r.error = some ("Some user emails not found: "
              ++ String.intercalate ", "
                  (invalidOwners (clean_owners_str owners_str)
                    (resolvedOwnerUsers st (clean_owners_str owners_str))))) ∧
        (invalidOwners (clean_owners_str owners_str)
            (resolvedOwnerUsers st (clean_owners_str owners_str)) = [] →
          r.error = none ∧ r.messages = ["Email list updated."])) ∧
      (resolvedOwnerUsers st (clean_owners_str owners_str) = [] →
        (findPulseUser r.store pulse_username).map PulseUser.owners = some pu.owners ∧
        r.error
          = some "Invalid owners: Must be a comma-delimited list of existing user emails.") := by
  have hname := findPulseUser_username hfind
  subst hname
  have hred : update_info st acting bcp pu.username new_password password_verification
        owners_str
      = Except.ok (update_info_owners
          (if new_password = "" then st else setPassword st pu.username new_password)
          pu (clean_owners_str owners_str)
          (if new_password = "" then []
           else ["Password updated for user " ++ pu.username ++ "."])) := by
    by_cases hp : new_password = ""
    · simp only [update_info, hfind]
      simp [howner, hp]
    · rcases hpw with h | ⟨hv, hs, hb⟩
      · exact absurd h hp
      · have hv' : ¬ new_password ≠ password_verification := by simp [hv]
        simp only [update_info, hfind]
        simp [howner, hp, hv', hs, hb]
  have hmain := update_info_owners_cases
      (if new_password = "" then st else setPassword st pu.username new_password)
      pu (clean_owners_str owners_str)
      (if new_password = "" then []
       else ["Password updated for user " ++ pu.username ++ "."])
      hne hdiff
  have husers : resolvedOwnerUsers
      (if new_password = "" then st else setPassword st pu.username new_password)
      (clean_owners_str owners_str) = resolvedOwnerUsers st (clean_owners_str owners_str) := by
    by_cases hp : new_password = "" <;> simp [hp, resolvedOwnerUsers, setPassword]
  have hfindb : ∃ pub : PulseUser, findPulseUser
      (if new_password = "" then st else setPassword st pu.username new_password) pu.username
        = some pub ∧ pub.owners = pu.owners := by
    by_cases hp : new_password = ""
    · exact ⟨pu, by simp [hp, hfind], rfl⟩
    · refine ⟨{ pu with password := new_password }, ?_, rfl⟩
      simp only [hp, if_neg, reduceIte]
      rw [findPulseUser_setPassword, hfind]
      rfl
  obtain ⟨pub, hpub, hpubo⟩ := hfindb
  rw [husers] at hmain
  refine ⟨update_info_owners
      (if new_password = "" then st else setPassword st pu.username new_password)
      pu (clean_owners_str owners_str)
      (if new_password = "" then []
       else ["Password updated for user " ++ pu.username ++ "."]), hred, ?_, ?_⟩
  · intro hres
    obtain ⟨hstore, herr1, herr2⟩ := hmain.1 hres
    refine ⟨?_, herr1, herr2⟩
    rw [hstore, findPulseUser_setOwners, hpub]
    rfl
  · intro hres
    obtain ⟨hstore, herr⟩ := hmain.2 hres
    refine ⟨?_, herr⟩
    rw [hstore, hpub]
    simp [hpubo]

/-- Witness for C3's amended theorem: alice requests
`"alice@example.com, ghost@example.com"`; the owners become exactly
`{alice}` and the unresolved `ghost@example.com` is reported as an error. -/
theorem update_info_owner_reconciliation_witness :
    ∃ r : UpdateResult,
      update_info st0 alice pwBrokerDown "pulse-alice" "" ""
          "alice@example.com, ghost@example.com" = Except.ok r ∧
      (findPulseUser r.store "pulse-alice").map PulseUser.owners
        = some ["alice@example.com"] ∧
      r.error = some "Some user emails not found: ghost@example.com" := by
  obtain ⟨r, hr, h1, _⟩ := update_info_owner_reconciliation st0 alice pwBrokerDown
    "pulse-alice" "" "" "alice@example.com, ghost@example.com" puAlice (by decide)
    (by decide) (Or.inl rfl) (by decide) (by decide)
  obtain ⟨hown, herr, _⟩ := h1 (by decide)
  refine ⟨r, hr, ?_, ?_⟩
  · rw [hown]
    decide
  · rw [herr (by decide)]
    decide

/-- Counterexample to C3 as stated: with an empty raw owner list the cleaned
new-owner set (`[]`) differs from the current owner set and no supplied
email resolves to a local user, yet `update_info` reports the informational
"No info updated." with no error at all, instead of the rejection the claim
requires for the no-email-resolves case. -/
theorem update_info_empty_owner_list_counterexample :
    clean_owners_str "" = [] ∧
    findPulseUser st0 "pulse-alice" = some puAlice ∧
    setEqStr (clean_owners_str "") puAlice.owners = false ∧
    resolvedOwnerUsers st0 (clean_owners_str "") = [] ∧
    update_info st0 alice pwBrokerDown "pulse-alice" "" "" ""
      = .ok ⟨st0, ["No info updated."], none⟩ :=
  ⟨by decide, by decide, by decide, by decide, by rfl⟩

/-- A store identical to `st0` except that no pulse user exists. -/
def stNoPulse : Store := ⟨[alice, bob, root], [], [qOwned, qOrphan]⟩

/-- Counterexample to C9 as stated: for the mutating `update_info` operation
the response reveals whether the target exists — the same unauthorized
caller gets "Pulse user pulse-alice not found." when the target is absent
and "Invalid user: ... is not an owner." when it exists, two different
responses. -/
theorem update_info_distinguishes_absent_from_forbidden :
    update_info stNoPulse bob pwBrokerDown "pulse-alice" "" "" ""
        = .ok ⟨stNoPulse, ["Pulse user pulse-alice not found."], none⟩ ∧
    update_info st0 bob pwBrokerDown "pulse-alice" "" "" ""
        = .ok ⟨st0, ["Invalid user: bob@example.com is not an owner."], none⟩ ∧
    (["Pulse user pulse-alice not found."] : List String)
        ≠ ["Invalid user: bob@example.com is not an owner."] :=
  ⟨by rfl, by rfl, by decide⟩

-- Credential creation (`register_handler`, web.py lines 463-514).

/-- The outcome of the `pulse_management.user(username)` call as observed by
`register_handler`: a parsed JSON response (which may or may not carry an
"error" key), a raised `PulseManagementException`, or another exception from
the HTTP client layer (e.g. the broker being unreachable), which
`register_handler` does not catch. -/
inductive BrokerUserLookup where
  | response (hasErrorKey : Bool)
  | clientError
  | unreachable
deriving DecidableEq, Repr

/-- web.py lines 487-496, the `try`/`except`/`else` around the broker
lookup: `some b` is the computed `in_rabbitmq` flag; `none` means an
exception other than `PulseManagementException` propagates out of the
handler, failing the whole operation. -/
def register_in_rabbitmq : BrokerUserLookup → Option Bool
  | .response hasErrorKey => some (!hasErrorKey)
  | .clientError => some false
  | .unreachable => none

/-- `re.match('^[a-zA-Z][a-zA-Z0-9._-]*$', username)` (web.py line 478). -/
def valid_username (username : String) : Bool :=
  match username.data with
  | [] => false
  | c :: rest =>
    c.isAlpha && rest.all (fun d => d.isAlpha || d.isDigit || d == '.' || d == '_' || d == '-')

/-- The `errors` list accumulated by `register_handler` (web.py lines
471-499), given the already-computed `in_rabbitmq` flag.  `reservedCheck`
models `config.reserved_users_regex` (absent when the config value is
falsy) and `reservedMsg` models `config.reserved_users_message`. -/
def register_errors (st : Store) (in_rabbitmq : Bool)
    (username password password_verification : String)
    (reservedCheck : Option (String → Bool)) (reservedMsg : String) : List String :=
  (if password ≠ password_verification then
     ["Password verification doesn\x27t match the password."]
   else if strong_password password = false then
     ["Your password must contain a mix of letters and "
       ++ "numerical characters and be at least 6 characters long."]
   else []) ++
  (if valid_username username = false then
     ["The submitted username must start with an "
       ++ "alphabetical character and contain only alphanumeric "
       ++ "characters, periods, underscores, and hyphens."]
   else []) ++
  (match reservedCheck with
   | some f => if f username then ["The submitted username is reserved. " ++ reservedMsg] else []
   | none => []) ++
  (if in_rabbitmq || (findPulseUser st username).isSome then
     ["A user with the same username already exists."]
   else [])

/-- The response of `register_handler`: the register page with signup
errors, the register page with an owners-list rejection, a successful
registration carrying the committed store, or an exception escaping the
handler. -/
inductive RegisterResult where
  | signupErrors (errors : List String)
  | ownersRejected (msg : String)
  | registered (store : Store)
  | serverError
deriving DecidableEq, Repr

/-- `register_handler` (web.py lines 463-514).  The final
`PulseUser.new_user(username, password, owner_users)` is modelled from the
spec (`model/pulse_user.py` is not under `src/`): the broker-side user is
created first (`brokerCreate`; a failure there raises out of the handler)
and the local row with the resolved owners is added only after. -/
def register_handler (st : Store) (lookup : BrokerUserLookup)
    (brokerCreate : Except String Unit)
    (reservedCheck : Option (String → Bool)) (reservedMsg : String)
    (username password password_verification owners_str : String) : RegisterResult :=
  match register_in_rabbitmq lookup with
  | none => .serverError
  | some in_rabbitmq =>
    let errors := register_errors st in_rabbitmq username password password_verification
      reservedCheck reservedMsg
    if errors ≠ [] then .signupErrors errors
    else
      let owner_users := resolvedOwnerUsers st (clean_owners_str owners_str)
      if owner_users = [] then
        .ownersRejected ("Invalid owners list: "
          ++ (if owners_str ≠ "" then owners_str else "None"))
      else
        match brokerCreate with
        | .error _ => .serverError
        | .ok _ => .registered { st with pulseUsers :=
            st.pulseUsers ++ [⟨username, password, owner_users.map User.email⟩] }

example : valid_username "alice.user_1-x" = true := by decide
example : valid_username "1alice" = false := by decide
example : valid_username "" = false := by decide
example : valid_username "ali ce" = false := by decide
example : strong_password "abc123" = true := by decide
example : strong_password "abcdef" = false := by decide
example : strong_password "123456" = false := by decide
example : strong_password "a1b2c" = false := by decide

example : register_handler stNoPulse (.response true) (.ok ()) none ""
    "newuser" "abc123" "abc123" "alice@example.com"
    = .registered ⟨[alice, bob, root],
        [⟨"newuser", "abc123", ["alice@example.com"]⟩], [qOwned, qOrphan]⟩ := by decide

example : register_handler stNoPulse (.response false) (.ok ()) none ""
    "newuser" "abc123" "abc123" "alice@example.com"
    = .signupErrors ["A user with the same username already exists."] := by decide

example : register_handler stNoPulse .unreachable (.ok ()) none ""
    "newuser" "abc123" "abc123" "alice@example.com" = .serverError := by decide

example : register_handler stNoPulse (.response true) (.ok ()) none ""
    "newuser" "abc123" "abc123" "ghost@x"
    = .ownersRejected "Invalid owners list: ghost@x" := by decide

example : register_handler stNoPulse (.response true) (.ok ()) none ""
    "newuser" "abc123" "abc123" ""
    = .ownersRejected "Invalid owners list: None" := by decide

lemma string_data_append (s t : String) : (s ++ t).data = s.data ++ t.data := rfl

lemma reserved_msg_ne_exists_msg (rm : String) :
    ("The submitted username is reserved. " ++ rm)
      ≠ "A user with the same username already exists." := by
  intro h
  have hd := congrArg String.data h
  rw [string_data_append] at hd
  injection hd with h1 _
  exact absurd h1 (by decide)

/-- C2: the broker-side existence check of credential creation treats a
successful lookup whose body carries an "error" key as "does not exist"
(`in_rabbitmq = false`), any other successful lookup as "exists"
(`in_rabbitmq = true`, which forces the duplicate-username error), and an
unreachable broker — an uncaught exception from the HTTP client — as a
failure of the whole operation, never contributing an existence verdict. -/
theorem register_broker_existence_check :
    (∀ b, register_in_rabbitmq (.response b) = some (!b)) ∧
    register_in_rabbitmq .unreachable = none ∧
    (∀ st bc rc rm u p pv os,
      register_handler st .unreachable bc rc rm u p pv os = .serverError) ∧
    (∀ st u p pv rc rm,
      "A user with the same username already exists."
        ∈ register_errors st true u p pv rc rm) ∧
    (∀ st u p pv rc rm, findPulseUser st u = none →
      "A user with the same username already exists."
        ∉ register_errors st false u p pv rc rm) := by
  refine ⟨fun b => rfl, rfl, fun st bc rc rm u p pv os => rfl, ?_, ?_⟩
  · intro st u p pv rc rm
    simp [register_errors]
  · intro st u p pv rc rm hfind hmem
    simp only [register_errors, List.mem_append] at hmem
    rcases hmem with ((h | h) | h) | h
    · split at h
      · exact absurd (List.mem_singleton.mp h) (by decide)
      · split at h
        · exact absurd (List.mem_singleton.mp h) (by decide)
        · simp at h
    · split at h
      · exact absurd (List.mem_singleton.mp h) (by decide)
      · simp at h
    · cases rc with
      | none => simp at h
      | some f =>
        simp only at h
        split at h
        · exact reserved_msg_ne_exists_msg rm (List.mem_singleton.mp h).symm
        · simp at h
    · rw [hfind] at h
      simp at h

/-- Witness for C2's conditional part: with no local pulse user named
`newuser`, an error-key response (`in_rabbitmq = false`) produces no
duplicate-username error. -/
theorem register_broker_existence_check_witness :
    "A user with the same username already exists."
      ∉ register_errors stNoPulse false "newuser" "abc123" "abc123" none "" :=
  register_broker_existence_check.2.2.2.2 stNoPulse "newuser" "abc123" "abc123"
    none "" (by decide)

-- The management client's path construction (`management.py`).

/-- Uppercase hexadecimal digit, as produced by `urllib.quote`. -/
def hexDigit (n : Nat) : Char :=
  if n < 10 then Char.ofNat (48 + n) else Char.ofNat (55 + n)

/-- One character under `urllib.quote(s, safe='')`: the always-safe
characters (letters, digits, `_`, `.`, `-`) pass through, everything else
becomes a percent escape of its code point (of its low byte, for the ASCII
identifiers at hand).  `safe=''` means `/` is escaped as well. -/
def quoteChar (c : Char) : List Char :=
  if c.isAlpha || c.isDigit || c == '_' || c == '.' || c == '-' then [c]
  else ['%', hexDigit (c.toNat / 16 % 16), hexDigit (c.toNat % 16)]

/-- `urllib.quote(s, '')`, applied by every management-client method to the
vhost, queue, username and channel path components. -/
def urllib_quote (s : String) : String :=
  ⟨s.data.flatMap quoteChar⟩

/-- `'queues/{}/{}'.format(vhost, queue)` (management.py lines 51-59). -/
def queue_path (vhost q : String) : String :=
  "queues/" ++ urllib_quote vhost ++ "/" ++ urllib_quote q

/-- `'queues/{}'.format(vhost)` (management.py lines 44-47). -/
def queues_vhost_path (vhost : String) : String :=
  "queues/" ++ urllib_quote vhost

/-- `'users/{}'.format(username)` (management.py lines 67-78). -/
def user_path (username : String) : String :=
  "users/" ++ urllib_quote username

/-- `'channels/{}'.format(channel)` (management.py lines 85-87). -/
def channel_path (channel : String) : String :=
  "channels/" ++ urllib_quote channel

example : urllib_quote "a/b" = "a%2Fb" := by decide
example : urllib_quote "queue name" = "queue%20name" := by decide
example : queue_path "/" "x/y" = "queues/%2F/x%2Fy" := by decide

lemma hexDigit_ne_slash : ∀ n < 16, hexDigit n ≠ '/' := by decide

lemma slash_not_mem_quoteChar (c : Char) : '/' ∉ quoteChar c := by
  unfold quoteChar
  split
  · rename_i hsafe
    intro hmem
    have hc := List.mem_singleton.mp hmem
    rw [← hc] at hsafe
    simp at hsafe
  · intro hmem
    simp only [List.mem_cons, List.not_mem_nil, or_false] at hmem
    rcases hmem with h | h | h
    · exact absurd h (by decide)
    · exact hexDigit_ne_slash _ (Nat.mod_lt _ (by norm_num)) h.symm
    · exact hexDigit_ne_slash _ (Nat.mod_lt _ (by norm_num)) h.symm

lemma slash_not_mem_quote (s : String) : '/' ∉ (urllib_quote s).data := by
  intro hmem
  have hmem' : '/' ∈ s.data.flatMap quoteChar := hmem
  rcases List.mem_flatMap.mp hmem' with ⟨c, _, hc⟩
  exact slash_not_mem_quoteChar c hc

lemma splitOnChar_no_sep {sep : Char} {l : List Char} (h : sep ∉ l) :
    splitOnChar sep l = [l] := by
  induction l with
  | nil => rfl
  | cons c cs ih =>
    have hc : ¬ c = sep := fun hh => h (hh ▸ List.mem_cons_self c cs)
    have ht : sep ∉ cs := fun hh => h (List.mem_cons_of_mem c hh)
    simp [splitOnChar, hc, ih ht]

lemma splitOnChar_append_sep (sep : Char) (a b : List Char) (ha : sep ∉ a) :
    splitOnChar sep (a ++ sep :: b) = a :: splitOnChar sep b := by
  induction a with
  | nil => simp [splitOnChar]
  | cons c cs ih =>
    have hc : ¬ c = sep := fun hh => ha (hh ▸ List.mem_cons_self c cs)
    have ht : sep ∉ cs := fun hh => ha (List.mem_cons_of_mem c hh)
    have hstep : splitOnChar sep ((c :: cs) ++ sep :: b)
        = match splitOnChar sep (cs ++ sep :: b) with
          | [] => [[c]]
          | t :: ts => (c :: t) :: ts := by
      simp [splitOnChar, hc]
    rw [hstep, ih ht]

/-- C6: every path the management client constructs splits on `/` into
exactly the expected segments — the fixed resource prefix followed by the
percent-encoded identifiers, one segment each — for every vhost, queue
name, username and channel name, including ones containing `/`. -/
theorem broker_paths_single_segment (vhost q username channel : String) :
    splitOnChar '/' (queue_path vhost q).data
      = ["queues".data, (urllib_quote vhost).data, (urllib_quote q).data] ∧
    splitOnChar '/' (queues_vhost_path vhost).data
      = ["queues".data, (urllib_quote vhost).data] ∧
    splitOnChar '/' (user_path username).data
      = ["users".data, (urllib_quote username).data] ∧
    splitOnChar '/' (channel_path channel).data
      = ["channels".data, (urllib_quote channel).data] := by
  refine ⟨?_, ?_, ?_, ?_⟩
  · have h2 : (queue_path vhost q).data
        = "queues".data ++ '/' :: ((urllib_quote vhost).data
            ++ '/' :: (urllib_quote q).data) := by
      simp only [queue_path, string_data_append, List.append_assoc]
      rfl
    rw [h2, splitOnChar_append_sep '/' _ _ (by decide),
      splitOnChar_append_sep '/' _ _ (slash_not_mem_quote vhost),
      splitOnChar_no_sep (slash_not_mem_quote q)]
  · have h2 : (queues_vhost_path vhost).data
        = "queues".data ++ '/' :: (urllib_quote vhost).data := rfl
    rw [h2, splitOnChar_append_sep '/' _ _ (by decide),
      splitOnChar_no_sep (slash_not_mem_quote vhost)]
  · have h2 : (user_path username).data
        = "users".data ++ '/' :: (urllib_quote username).data := rfl
    rw [h2, splitOnChar_append_sep '/' _ _ (by decide),
      splitOnChar_no_sep (slash_not_mem_quote username)]
  · have h2 : (channel_path channel).data
        = "channels".data ++ '/' :: (urllib_quote channel).data := rfl
    rw [h2, splitOnChar_append_sep '/' _ _ (by decide),
      splitOnChar_no_sep (slash_not_mem_quote channel)]

/-- `PulseManagementAPI._api_request` (management.py lines 27-40), given the
response body of the HTTP call and a JSON parser: an empty body is a
successful no-content result (`ok none`); a non-empty body is parsed, and a
parse failure (`ValueError`) raises `PulseManagementException` whose message
names the method, the path and the request payload.  `data` stands for the
textual rendering of the payload in that message. -/
def api_request (J : Type) (parse : String → Option J)
    (method path data content : String) : Except String (Option J) :=
  if content = "" then .ok none
  else match parse content with
    | some j => .ok (some j)
    | none => .error ("Error when calling \x27" ++ method ++ " " ++ path
        ++ "\x27 with data=" ++ data ++ ". Received : " ++ content)

/-- C7: an empty response body yields the successful no-content result, and
a non-empty body that fails to parse yields a client-level error whose
message contains the HTTP method, the request path and the request payload
— never a silent success. -/
theorem api_request_empty_and_unparsable (J : Type) (parse : String → Option J)
    (method path data content : String) :
    (content = "" → api_request J parse method path data content = .ok none) ∧
    (content ≠ "" → parse content = none →
      ∃ msg, api_request J parse method path data content = .error msg ∧
        method.data <:+: msg.data ∧ path.data <:+: msg.data ∧ data.data <:+: msg.data) := by
  constructor
  · intro h
    simp [api_request, h]
  · intro h hp
    refine ⟨"Error when calling \x27" ++ method ++ " " ++ path
        ++ "\x27 with data=" ++ data ++ ". Received : " ++ content, ?_, ?_, ?_, ?_⟩
    · simp [api_request, h, hp]
    · exact ⟨"Error when calling \x27".data,
        (" " ++ path ++ "\x27 with data=" ++ data ++ ". Received : " ++ content).data,
        by simp [string_data_append, List.append_assoc]⟩
    · exact ⟨("Error when calling \x27" ++ method ++ " ").data,
        ("\x27 with data=" ++ data ++ ". Received : " ++ content).data,
        by simp [string_data_append, List.append_assoc]⟩
    · exact ⟨("Error when calling \x27" ++ method ++ " " ++ path ++ "\x27 with data=").data,
        (". Received : " ++ content).data,
        by simp [string_data_append, List.append_assoc]⟩

/-- Witness for C7 at a concrete unparsable body and a concrete empty body. -/
theorem api_request_empty_and_unparsable_witness :
    api_request Unit (fun _ => none) "GET" "queues" "None" "" = .ok none ∧
    ∃ msg, api_request Unit (fun _ => none) "GET" "queues" "None" "<html>" = .error msg ∧
      "GET".data <:+: msg.data ∧ "queues".data <:+: msg.data ∧ "None".data <:+: msg.data :=
  ⟨(api_request_empty_and_unparsable Unit (fun _ => none) "GET" "queues" "None" "").1 rfl,
   (api_request_empty_and_unparsable Unit (fun _ => none)
     "GET" "queues" "None" "<html>").2 (by decide) rfl⟩

-- The Auth0 callback (`callback_handling`, web.py lines 329-389).

/-- The token-endpoint exchange as observed by the callback: the HTTP status
flag (`ok`, which the code never reads) and the parsed body —
`none` when `.json()` raises, `some none` when the parsed body has no
`access_token` key (the subscript raises `KeyError`), `some (some t)` when a
token is present. -/
structure TokenResponse where
  ok : Bool
  body : Option (Option String)
deriving DecidableEq, Repr

/-- The `userinfo` profile fetch: the HTTP status flag and the `email` field
of the parsed profile (`none` when absent, raising `KeyError`). -/
structure ProfileResponse where
  ok : Bool
  email : Option String
deriving DecidableEq, Repr

/-- The observable outcome of the callback: a logged-in session for `email`
with the (possibly extended) store and a redirect, an anonymous redirect to
`/` carrying a flashed notice, or an exception escaping the handler. -/
inductive CallbackResult where
  | success (email : String) (store : Store) (redirectTo : String)
  | failureNotice (flashMsg : String)
  | serverError
deriving DecidableEq, Repr

/-- `callback_handling` (web.py lines 329-389): the token response's status
is never consulted — only its body; `resp.ok` of the profile fetch decides
between establishing the session (finding or creating the `User`, then
routing on whether it owns a pulse user) and flashing the Auth0 failure
notice. -/
def callback_handling (auth0_domain : String) (st : Store)
    (tok : TokenResponse) (prof : ProfileResponse) : CallbackResult :=
  match tok.body with
  | none => .serverError
  | some none => .serverError
  | some (some _access_token) =>
    if prof.ok then
      match prof.email with
      | none => .serverError
      | some email =>
        let st' := if st.users.any (fun u => u.email == email) then st
                   else { st with users := st.users ++ [⟨email, false⟩] }
        if st'.pulseUsers.any (fun pu => pu.owners.contains email) then
          .success email st' "/"
        else
          .success email st' "/register"
    else
      .failureNotice ("Error verifying with Auth0 (" ++ auth0_domain ++ ")")

example : callback_handling "pulse.auth0.com" st0 ⟨true, some (some "t")⟩ ⟨true, some "alice@example.com"⟩
    = .success "alice@example.com" st0 "/" := by decide

example : callback_handling "pulse.auth0.com" st0 ⟨true, some (some "t")⟩ ⟨false, none⟩
    = .failureNotice "Error verifying with Auth0 (pulse.auth0.com)" := by decide

/-- C8 (amended): only the profile fetch's HTTP status is checked.  A
non-success profile fetch never establishes a session: the callback flashes
the notice naming the configured Auth0 domain and redirects anonymously.  A
token-endpoint response without an access token — the observable effect of
a failed token exchange — makes the handler fail with an unhandled error
(no session, but also no notice or redirect). -/
theorem callback_identity_failure_handling
    (auth0_domain : String) (st : Store) (tok : TokenResponse) (prof : ProfileResponse)
    (t : String) (htok : tok.body = some (some t)) (hprof : prof.ok = false) :
    callback_handling auth0_domain st tok prof
      = .failureNotice ("Error verifying with Auth0 (" ++ auth0_domain ++ ")") ∧
    auth0_domain.data <:+: ("Error verifying with Auth0 (" ++ auth0_domain ++ ")").data ∧
    (∀ (tok2 : TokenResponse) (prof2 : ProfileResponse),
      tok2.body = none ∨ tok2.body = some none →
      callback_handling auth0_domain st tok2 prof2 = .serverError) := by
  refine ⟨?_, ?_, ?_⟩
  · simp [callback_handling, htok, hprof]
  · exact ⟨"Error verifying with Auth0 (".data, ")".data,
      by simp [string_data_append, List.append_assoc]⟩
  · intro tok2 prof2 h
    rcases h with h | h <;> simp [callback_handling, h]

/-- Witness for C8's amended theorem at concrete responses. -/
theorem callback_identity_failure_handling_witness :
    callback_handling "pulse.auth0.com" st0 ⟨true, some (some "tok")⟩ ⟨false, some "x@y"⟩
      = .failureNotice "Error verifying with Auth0 (pulse.auth0.com)" ∧
    callback_handling "pulse.auth0.com" st0 ⟨false, some none⟩ ⟨true, some "x@y"⟩
      = .serverError := by
  have h := callback_identity_failure_handling "pulse.auth0.com" st0
    ⟨true, some (some "tok")⟩ ⟨false, some "x@y"⟩ "tok" rfl rfl
  exact ⟨h.1, h.2.2 ⟨false, some none⟩ ⟨true, some "x@y"⟩ (Or.inr rfl)⟩

/-- Counterexample to C8 as stated: the token exchange's status is ignored,
so a non-success token response whose body nevertheless carries an access
token proceeds as if successful — the callback marks the session logged in
(a `success` outcome) even though an identity-provider exchange returned a
non-success result. -/
theorem callback_token_status_ignored_counterexample :
    (⟨false, some (some "token123")⟩ : TokenResponse).ok = false ∧
    callback_handling "pulse.auth0.com" st0 ⟨false, some (some "token123")⟩
        ⟨true, some "carol@example.com"⟩
      = .success "carol@example.com"
          ⟨[alice, bob, root, ⟨"carol@example.com", false⟩], [puAlice], [qOwned, qOrphan]⟩
          "/register" := by decide

-- The queue-bindings read-only endpoint (`bindings_listing`, web.py 318-324).

/-- `bindings_listing` (web.py lines 318-324): the route carries no
`requires_login` or admin decorator and its body never consults the session
user, which is therefore an explicit but unused parameter here; with a local
`Queue` record the broker's bindings for it are returned, otherwise an
empty list. -/
def bindings_listing (_sessionUser : Option User) (st : Store)
    (brokerBindings : String → List String) (queue_name : String) :
    String × List String :=
  match findQueue st queue_name with
  | some queue => (queue_name, brokerBindings queue.name)
  | none => (queue_name, [])

/-- C10: the bindings listing is caller-independent — any two callers
(anonymous, logged-in, admin) receive the identical result — and that
result is the queue's broker bindings when a local record exists and the
empty list otherwise. -/
theorem bindings_listing_no_authorization
    (u₁ u₂ : Option User) (st : Store) (bb : String → List String) (qn : String) :
    bindings_listing u₁ st bb qn = bindings_listing u₂ st bb qn ∧
    ((∃ q, findQueue st qn = some q ∧ bindings_listing u₁ st bb qn = (qn, bb q.name)) ∨
     (findQueue st qn = none ∧ bindings_listing u₁ st bb qn = (qn, []))) := by
  refine ⟨rfl, ?_⟩
  cases hf : findQueue st qn with
  | some q => exact Or.inl ⟨q, rfl, by simp [bindings_listing, hf]⟩
  | none => exact Or.inr ⟨rfl, by simp [bindings_listing, hf]⟩
